import Mathlib

/-!
Shallow embedding of `DatabaseSignalsPollingService`
(`services/database-signals-polling.ts`, embedded in
`DATABASE_OPTIMIZATION.md`).

Modelling conventions:
* JS epoch-millisecond timestamps (`Date.now()`) are `Nat`; the ISO-8601
  strings produced by `toISOString()` are an order-preserving, injective
  encoding of those milliseconds, so the `lastPollTime` field is modelled
  directly as `Option Nat` and signal string timestamps via `isoString`.
* The two remote HTTP calls are oracles supplied as parameters:
  a `none` result models the whole failure path (network rejection,
  non-ok HTTP status, or — for the signals call — expiry of the
  10-second `AbortSignal.timeout`, all of which land in the same
  `catch`); a `some` result models a successful call's parsed JSON.
* The caller-supplied callbacks `onSignalFound` / `onError` are stored as
  abstract identifiers (`Option Nat`); every invocation of a callback and
  every remote request is recorded as a `PollEvent` in the returned trace,
  in the order the code performs them.
* `Math.random()`-derived values in the mock signal enter as oracle
  parameters (`coin` for the BUY/SELL coin flip; the three formatted
  price strings for the floating-point `toFixed(2)` computations).
-/

namespace EAVault

/-- The `DatabaseSignal` record interface; the poller treats every field as
an opaque string and passes records through unchanged. -/
structure DatabaseSignal where
  id : String
  ea : String
  asset : String
  latestupdate : String
  type : String
  action : String
  price : String
  tp : String
  sl : String
  time : String
  results : String
deriving DecidableEq, Repr

/-- One entry of the private `eaCache` map:
`{ ea: string | null, timestamp: number }`. -/
structure EACacheEntry where
  ea : Option String
  timestamp : Nat
deriving DecidableEq, Repr

/-- The mutable fields of `DatabaseSignalsPollingService`. `intervalId` is
`some id` exactly when a timer is installed; `onSignalFound` / `onError`
hold abstract callback identifiers. -/
structure PollerState where
  isEnabled : Bool
  intervalId : Option Nat
  onSignalFound : Option Nat
  onError : Option Nat
  currentLicenseKey : Option String
  currentEA : Option String
  lastPollTime : Option Nat
  eaCache : List (String × EACacheEntry)
  consecutiveErrors : Nat
deriving DecidableEq, Repr

/-- Field initializers of the class: enabled, no timer, no session, empty
cache, zero errors. -/
def initialState : PollerState :=
  { isEnabled := true
    intervalId := none
    onSignalFound := none
    onError := none
    currentLicenseKey := none
    currentEA := none
    lastPollTime := none
    eaCache := []
    consecutiveErrors := 0 }

/-- `EA_CACHE_TTL = 300000` (5 minutes). -/
def EA_CACHE_TTL : Nat := 300000

/-- `maxConsecutiveErrors = 3`. -/
def maxConsecutiveErrors : Nat := 3

/-- Both the mock and the real `setInterval` period: 30000 ms. -/
def POLL_INTERVAL_MS : Nat := 30000

/-- `AbortSignal.timeout(10000)` on the signals fetch. -/
def FETCH_TIMEOUT_MS : Nat := 10000

/-- The `setTimeout` cooldown before the attempted auto-restart: 300000 ms
(5 minutes). -/
def ERROR_COOLDOWN_MS : Nat := 300000

/-- Observable actions of the service, in program order: remote requests,
callback invocations, and the scheduling of the one-shot resume. -/
inductive PollEvent where
  | remoteResolve (licenseKey : String)
  | remoteFetch (eaId : String) (since : Nat) (timeoutMs : Nat)
  | signalFound (cb : Nat) (signal : DatabaseSignal)
  | errorCalled (cb : Nat) (message : String)
  | scheduleResume (delayMs : Nat)
deriving DecidableEq, Repr

/-- `Map.get` on the `eaCache` association list. -/
def cacheGet (c : List (String × EACacheEntry)) (k : String) :
    Option EACacheEntry :=
  match c.find? (fun p => p.1 == k) with
  | some p => some p.2
  | none => none

/-- `Map.set`: replace the entry for `k` in place, or append a new one. -/
def cacheSet (c : List (String × EACacheEntry)) (k : String)
    (v : EACacheEntry) : List (String × EACacheEntry) :=
  if c.any (fun p => p.1 == k) then
    c.map (fun p => if p.1 == k then (k, v) else p)
  else
    c ++ [(k, v)]

/-- `stopPolling()`: clear the timer and all session fields (license key, EA,
watermark). The `eaCache`, `consecutiveErrors`, callbacks and `isEnabled`
are untouched. -/
def stopPolling (s : PollerState) : PollerState :=
  { s with
    intervalId := none
    currentLicenseKey := none
    currentEA := none
    lastPollTime := none }

/-- `enableDatabaseConnections()`. -/
def enableDatabaseConnections (s : PollerState) : PollerState :=
  { s with isEnabled := true }

/-- `disableDatabaseConnections()`: set `isEnabled = false` then
`stopPolling()`. -/
def disableDatabaseConnections (s : PollerState) : PollerState :=
  stopPolling { s with isEnabled := false }

/-- `isRunning()`: `this.intervalId !== null`. -/
def isRunning (s : PollerState) : Bool :=
  s.intervalId.isSome

/-- The record returned by `getStatus()`. -/
structure PollingStatus where
  isRunning : Bool
  licenseKey : Option String
  ea : Option String
  lastPollTime : Option Nat
  isEnabled : Bool
deriving DecidableEq, Repr

/-- `getStatus()`: read-only snapshot of the session. -/
def getStatus (s : PollerState) : PollingStatus :=
  { isRunning := isRunning s
    licenseKey := s.currentLicenseKey
    ea := s.currentEA
    lastPollTime := s.lastPollTime
    isEnabled := s.isEnabled }

/-- Oracle for `fetch('/api/get-ea-from-license?...')`: `none` models the
failure path (rejection or `!response.ok`); `some eaId` models a successful
call whose JSON field `data.eaId` is `eaId` (`eaId = none` models a null
`eaId`, i.e. a resolved "no EA found"). -/
abbrev ResolveResult := Option (Option String)

/-- Oracle for `fetch('/api/get-new-signals?...')`: `none` models any
failure (rejection, `!response.ok`, or expiry of the 10-second timeout);
`some signals` models a successful call whose `data.signals` is
`signals`. -/
abbrev FetchResult := Option (List DatabaseSignal)

/-- The part of `getEAFromLicense` after the cache check misses: perform the
remote call; on success store `{ ea: data.eaId, timestamp: Date.now() }`
under the license key and return `data.eaId`; on failure store nothing and
throw `'Failed to fetch EA from license'`. -/
def getEAFromLicenseRemote (s : PollerState) (licenseKey : String)
    (now : Nat) (resolveResult : ResolveResult) :
    PollerState × List PollEvent × Except String (Option String) :=
  match resolveResult with
  | none =>
      (s, [PollEvent.remoteResolve licenseKey],
       Except.error "Failed to fetch EA from license")
  | some eaId =>
      ({ s with eaCache := cacheSet s.eaCache licenseKey ⟨eaId, now⟩ },
       [PollEvent.remoteResolve licenseKey],
       Except.ok eaId)

/-- `getEAFromLicense(licenseKey)`: if a cached entry exists and
`Date.now() - cached.timestamp < EA_CACHE_TTL` return `cached.ea` without
any remote call; otherwise fall through to the remote path. -/
def getEAFromLicense (s : PollerState) (licenseKey : String) (now : Nat)
    (resolveResult : ResolveResult) :
    PollerState × List PollEvent × Except String (Option String) :=
  match cacheGet s.eaCache licenseKey with
  | some cached =>
      if now - cached.timestamp < EA_CACHE_TTL then
        (s, [], Except.ok cached.ea)
      else
        getEAFromLicenseRemote s licenseKey now resolveResult
  | none => getEAFromLicenseRemote s licenseKey now resolveResult

/-- `getNewSignalsForEA(ea)`: build the request with
`since = this.lastPollTime || (Date.now() - 60*60*1000)` and the 10-second
timeout. On success reset `consecutiveErrors` to 0 and return the signals.
On any failure increment `consecutiveErrors`; if it has reached
`maxConsecutiveErrors`, call `stopPolling()` and schedule the one-shot
resume after `ERROR_COOLDOWN_MS`; in every failure case throw
`'Failed to fetch new signals'`. -/
def getNewSignalsForEA (s : PollerState) (ea : String) (now : Nat)
    (fetchResult : FetchResult) :
    PollerState × List PollEvent × Except String (List DatabaseSignal) :=
  let since := s.lastPollTime.getD (now - 3600000)
  let ev := PollEvent.remoteFetch ea since FETCH_TIMEOUT_MS
  match fetchResult with
  | some signals =>
      ({ s with consecutiveErrors := 0 }, [ev], Except.ok signals)
  | none =>
      let s1 := { s with consecutiveErrors := s.consecutiveErrors + 1 }
      if maxConsecutiveErrors ≤ s1.consecutiveErrors then
        (stopPolling s1,
         [ev, PollEvent.scheduleResume ERROR_COOLDOWN_MS],
         Except.error "Failed to fetch new signals")
      else
        (s1, [ev], Except.error "Failed to fetch new signals")

/-- `checkForNewSignals(licenseKey)`: resolve the EA (at time `tResolve`);
a resolution failure rethrows. If the resolved EA is falsy (null or the
empty string) abandon the cycle without error. Otherwise record
`currentEA`, fetch signals (building the request at time `tFetch`); a fetch
failure rethrows. On success invoke `onSignalFound` once per signal in
order, then set `lastPollTime` to the current time `tEnd`. The third
component is the thrown error message, if any. -/
def checkForNewSignals (s : PollerState) (licenseKey : String)
    (tResolve tFetch tEnd : Nat)
    (resolveResult : ResolveResult) (fetchResult : FetchResult) :
    PollerState × List PollEvent × Option String :=
  match getEAFromLicense s licenseKey tResolve resolveResult with
  | (s1, ev1, Except.error e) => (s1, ev1, some e)
  | (s1, ev1, Except.ok none) => (s1, ev1, none)
  | (s1, ev1, Except.ok (some ea)) =>
      if ea.isEmpty then
        (s1, ev1, none)
      else
        let s2 := { s1 with currentEA := some ea }
        match getNewSignalsForEA s2 ea tFetch fetchResult with
        | (s3, ev2, Except.error e) => (s3, ev1 ++ ev2, some e)
        | (s3, ev2, Except.ok signals) =>
            let sigEvents :=
              match s3.onSignalFound with
              | some cb => signals.map (fun sig => PollEvent.signalFound cb sig)
              | none => []
            ({ s3 with lastPollTime := some tEnd },
             ev1 ++ ev2 ++ sigEvents, none)

/-- The `setInterval` callback installed by `startRealPolling`: run
`checkForNewSignals`; if it throws, invoke `onError` with
`` `Database error: ${error}` ``. -/
def tick (s : PollerState) (licenseKey : String)
    (tResolve tFetch tEnd : Nat)
    (resolveResult : ResolveResult) (fetchResult : FetchResult) :
    PollerState × List PollEvent :=
  match checkForNewSignals s licenseKey tResolve tFetch tEnd
      resolveResult fetchResult with
  | (s1, evs, none) => (s1, evs)
  | (s1, evs, some e) =>
      match s1.onError with
      | some cb =>
          (s1, evs ++ [PollEvent.errorCalled cb ("Database error: " ++ e)])
      | none => (s1, evs)

/-- The initial cycle issued by `startRealPolling` before the first tick:
`checkForNewSignals(licenseKey).catch(error => console.error(...))` — a
failure is swallowed by the `.catch` (logged only); `onError` is never
invoked. -/
def initialCheck (s : PollerState) (licenseKey : String)
    (tResolve tFetch tEnd : Nat)
    (resolveResult : ResolveResult) (fetchResult : FetchResult) :
    PollerState × List PollEvent :=
  let r := checkForNewSignals s licenseKey tResolve tFetch tEnd
      resolveResult fetchResult
  (r.1, r.2.1)

/-- Which interval callback a `startPolling` call installed. -/
inductive TimerKind where
  | mock
  | real
deriving DecidableEq, Repr

/-- The timer installed by a `startPolling` call: its callback kind and its
`setInterval` period in milliseconds. -/
structure TimerSpec where
  kind : TimerKind
  periodMs : Nat
deriving DecidableEq, Repr

/-- `startPolling(licenseKey, onSignalFound, onError)`: if `intervalId` is
set, return immediately (no field is touched and no timer is created).
Otherwise store the callbacks and license key, set `lastPollTime` to now,
and install the 30-second timer — the mock one when `isEnabled` is false,
the real one otherwise. Returns the installed timer's description
(`none` on the no-op path). -/
def startPolling (s : PollerState) (licenseKey : String)
    (cbSignal cbError : Option Nat) (now : Nat) (timerId : Nat) :
    PollerState × Option TimerSpec :=
  if s.intervalId.isSome then
    (s, none)
  else
    let s1 := { s with
      onSignalFound := cbSignal
      onError := cbError
      currentLicenseKey := some licenseKey
      lastPollTime := some now }
    if s1.isEnabled then
      ({ s1 with intervalId := some timerId },
       some ⟨TimerKind.real, POLL_INTERVAL_MS⟩)
    else
      ({ s1 with intervalId := some timerId },
       some ⟨TimerKind.mock, POLL_INTERVAL_MS⟩)

/-- Injective encoding of `new Date(ms).toISOString()`. -/
def isoString (ms : Nat) : String :=
  "ISO(" ++ toString ms ++ ")"

/-- The fabricated signal built by the mock interval callback.
`coin` models `Math.random() > 0.5`; the three strings model the
`toFixed(2)` floating-point computations for price, tp and sl. -/
def mockSignal (now : Nat) (coin : Bool) (priceStr tpStr slStr : String) :
    DatabaseSignal :=
  { id := "mock-" ++ toString now
    ea := "MockEA"
    asset := "XAUUSD"
    latestupdate := isoString now
    type := "TRADE"
    action := if coin then "BUY" else "SELL"
    price := priceStr
    tp := tpStr
    sl := slStr
    time := isoString now
    results := "PENDING" }

/-- One firing of the mock interval timer installed by `startMockPolling`:
build a mock signal and, if `onSignalFound` is set, invoke it. No state
field changes and no remote request is made. -/
def mockTick (s : PollerState) (now : Nat) (coin : Bool)
    (priceStr tpStr slStr : String) : PollerState × List PollEvent :=
  match s.onSignalFound with
  | some cb =>
      (s, [PollEvent.signalFound cb (mockSignal now coin priceStr tpStr slStr)])
  | none => (s, [])

/-- The body of the `setTimeout` scheduled when the error threshold is
reached: if `currentLicenseKey` is still set, zero the error counter and
call `startPolling` with the stored key and callbacks; otherwise do
nothing. -/
def resumeCallback (s : PollerState) (now : Nat) (timerId : Nat) :
    PollerState × Option TimerSpec :=
  match s.currentLicenseKey with
  | some key =>
      startPolling { s with consecutiveErrors := 0 } key
        s.onSignalFound s.onError now timerId
  | none => (s, none)

/-- The signals delivered through `onSignalFound` in a trace, in order. -/
def signalEvents : List PollEvent → List DatabaseSignal
  | [] => []
  | PollEvent.signalFound _ sig :: rest => sig :: signalEvents rest
  | _ :: rest => signalEvents rest

/-- The messages delivered through `onError` in a trace, in order. -/
def errorEvents : List PollEvent → List String
  | [] => []
  | PollEvent.errorCalled _ m :: rest => m :: errorEvents rest
  | _ :: rest => errorEvents rest

/-- The remote requests (either endpoint) occurring in a trace. -/
def remoteEvents : List PollEvent → List PollEvent
  | [] => []
  | PollEvent.remoteResolve k :: rest =>
      PollEvent.remoteResolve k :: remoteEvents rest
  | PollEvent.remoteFetch ea since t :: rest =>
      PollEvent.remoteFetch ea since t :: remoteEvents rest
  | _ :: rest => remoteEvents rest

/-- The `since` parameter of the first signals request in a trace. -/
def firstFetchSince : List PollEvent → Option Nat
  | [] => none
  | PollEvent.remoteFetch _ since _ :: _ => some since
  | _ :: rest => firstFetchSince rest

/-- The value `getEAFromLicense` would return from the cache alone:
`some v` when a fresh entry for the key exists (its stored `ea`), `none`
when the remote path would be taken. -/
def eaCacheHit (s : PollerState) (licenseKey : String) (now : Nat) :
    Option (Option String) :=
  match cacheGet s.eaCache licenseKey with
  | some cached =>
      if now - cached.timestamp < EA_CACHE_TTL then some cached.ea else none
  | none => none

/-- The overall EA-resolution outcome of a cycle: the cache value when
fresh, the remote oracle's answer otherwise (`none` = the resolution
throws). -/
def resolvedEA (s : PollerState) (licenseKey : String) (now : Nat)
    (resolveResult : ResolveResult) : ResolveResult :=
  match eaCacheHit s licenseKey now with
  | some v => some v
  | none => resolveResult

/-- Whether a cycle reaches the signals fetch: resolution succeeded with a
truthy (non-null, non-empty) EA. -/
def reachesFetch (s : PollerState) (licenseKey : String) (now : Nat)
    (resolveResult : ResolveResult) : Bool :=
  match resolvedEA s licenseKey now resolveResult with
  | some (some ea) => !ea.isEmpty
  | _ => false

/-- Whether a cycle completes successfully (fetch reached and the fetch
oracle answers). -/
def cycleSucceeds (s : PollerState) (licenseKey : String) (tResolve : Nat)
    (resolveResult : ResolveResult) (fetchResult : FetchResult) : Bool :=
  reachesFetch s licenseKey tResolve resolveResult && fetchResult.isSome

/-- A running real-polling session, as produced by `startPolling` on the
initial state; used to instantiate theorems with hypotheses. -/
def runningState : PollerState :=
  { isEnabled := true
    intervalId := some 0
    onSignalFound := some 10
    onError := some 11
    currentLicenseKey := some "LICENSE-1"
    currentEA := none
    lastPollTime := some 1000
    eaCache := []
    consecutiveErrors := 0 }

/-- A sample signal record for concrete instantiations. -/
def sampleSignal : DatabaseSignal :=
  { id := "1"
    ea := "EA-1"
    asset := "XAUUSD"
    latestupdate := "2026-01-01T00:00:00Z"
    type := "TRADE"
    action := "BUY"
    price := "2000.00"
    tp := "20.00"
    sl := "10.00"
    time := "2026-01-01T00:00:00Z"
    results := "PENDING" }

/-- A second sample signal. -/
def sampleSignal2 : DatabaseSignal :=
  { sampleSignal with id := "2", action := "SELL" }

theorem runningState_reachable :
    (startPolling initialState "LICENSE-1" (some 10) (some 11) 1000 0).1 =
      runningState := by decide

/-- `getEAFromLicense` can change only the `eaCache` field of the state. -/
theorem getEAFromLicense_state_eq (s : PollerState) (key : String)
    (now : Nat) (rr : ResolveResult) :
    (getEAFromLicense s key now rr).1 =
      { s with eaCache := (getEAFromLicense s key now rr).1.eaCache } := by
  unfold getEAFromLicense getEAFromLicenseRemote
  repeat' split
  all_goals rfl

/-- The resolution outcome of `getEAFromLicense`, characterized by
`resolvedEA`. -/
theorem getEAFromLicense_result (s : PollerState) (key : String)
    (now : Nat) (rr : ResolveResult) :
    (getEAFromLicense s key now rr).2.2 =
      match resolvedEA s key now rr with
      | none => Except.error "Failed to fetch EA from license"
      | some v => Except.ok v := by
  unfold getEAFromLicense getEAFromLicenseRemote resolvedEA eaCacheHit
  repeat' split
  all_goals simp_all

/-- Resolution makes a remote request exactly when the cache misses. -/
theorem getEAFromLicense_events (s : PollerState) (key : String)
    (now : Nat) (rr : ResolveResult) :
    (getEAFromLicense s key now rr).2.1 =
      match eaCacheHit s key now with
      | some _ => []
      | none => [PollEvent.remoteResolve key] := by
  unfold getEAFromLicense getEAFromLicenseRemote eaCacheHit
  repeat' split
  all_goals simp_all

theorem signalEvents_append (l1 l2 : List PollEvent) :
    signalEvents (l1 ++ l2) = signalEvents l1 ++ signalEvents l2 := by
  induction l1 with
  | nil => rfl
  | cons e rest ih => cases e <;> simp [signalEvents, ih]

theorem signalEvents_map (cb : Nat) (sigs : List DatabaseSignal) :
    signalEvents (sigs.map (fun sig => PollEvent.signalFound cb sig)) = sigs := by
  induction sigs with
  | nil => rfl
  | cons sig rest ih => simp [signalEvents, ih]

theorem errorEvents_append (l1 l2 : List PollEvent) :
    errorEvents (l1 ++ l2) = errorEvents l1 ++ errorEvents l2 := by
  induction l1 with
  | nil => rfl
  | cons e rest ih => cases e <;> simp [errorEvents, ih]

theorem errorEvents_map_signalFound (cb : Nat) (sigs : List DatabaseSignal) :
    errorEvents (sigs.map (fun sig => PollEvent.signalFound cb sig)) = [] := by
  induction sigs with
  | nil => rfl
  | cons sig rest ih => simp [errorEvents, ih]

/-- A cycle body never invokes `onError` itself: any reporting is done by
the caller of the cycle. -/
theorem errorEvents_checkForNewSignals (s : PollerState) (key : String)
    (tR tF tEnd : Nat) (rr : ResolveResult) (fr : FetchResult) :
    errorEvents (checkForNewSignals s key tR tF tEnd rr fr).2.1 = [] := by
  rcases hg : getEAFromLicense s key tR rr with ⟨s1, ev1, r⟩
  have hres := getEAFromLicense_result s key tR rr
  have hev := getEAFromLicense_events s key tR rr
  rw [hg] at hres hev
  simp only at hres hev
  have hev1 : errorEvents ev1 = [] := by
    rw [hev]; cases eaCacheHit s key tR <;> rfl
  unfold checkForNewSignals
  rw [hg]
  cases hre : resolvedEA s key tR rr with
  | none =>
      rw [hre] at hres; subst hres
      simpa using hev1
  | some v =>
      rw [hre] at hres; subst hres
      cases v with
      | none => simpa using hev1
      | some ea =>
          by_cases he : ea.isEmpty
          · simp only [he, if_pos]
            simpa using hev1
          · simp only [he]
            unfold getNewSignalsForEA
            cases fr with
            | some sigs =>
                cases hsf : s1.onSignalFound <;>
                  simp [hsf, errorEvents_append, hev1,
                    errorEvents_map_signalFound, errorEvents]
            | none =>
                by_cases hth : maxConsecutiveErrors ≤ s1.consecutiveErrors + 1 <;>
                  simp [hth, errorEvents_append, hev1, errorEvents]

/-- A cycle preserves the callback slots and the enabled flag. -/
theorem checkForNewSignals_frame (s : PollerState) (key : String)
    (tR tF tEnd : Nat) (rr : ResolveResult) (fr : FetchResult) :
    (checkForNewSignals s key tR tF tEnd rr fr).1.onError = s.onError ∧
    (checkForNewSignals s key tR tF tEnd rr fr).1.onSignalFound = s.onSignalFound ∧
    (checkForNewSignals s key tR tF tEnd rr fr).1.isEnabled = s.isEnabled := by
  rcases hg : getEAFromLicense s key tR rr with ⟨s1, ev1, r⟩
  have hstate := getEAFromLicense_state_eq s key tR rr
  have hres := getEAFromLicense_result s key tR rr
  rw [hg] at hstate hres
  simp only at hstate hres
  have h1 : s1.onError = s.onError := by rw [hstate]
  have h2 : s1.onSignalFound = s.onSignalFound := by rw [hstate]
  have h3 : s1.isEnabled = s.isEnabled := by rw [hstate]
  unfold checkForNewSignals
  rw [hg]
  cases hre : resolvedEA s key tR rr with
  | none =>
      rw [hre] at hres; subst hres
      simp [h1, h2, h3]
  | some v =>
      rw [hre] at hres; subst hres
      cases v with
      | none => simp [h1, h2, h3]
      | some ea =>
          by_cases he : ea.isEmpty
          · simp [he, h1, h2, h3]
          · simp only [he]
            unfold getNewSignalsForEA stopPolling
            cases fr with
            | some sigs => simp [h1, h2, h3]
            | none =>
                by_cases hth : maxConsecutiveErrors ≤ s1.consecutiveErrors + 1 <;>
                  simp [hth, h1, h2, h3]


/-- A state whose `eaCache` holds a fresh entry for `LICENSE-1`, used to
instantiate the caching theorems. -/
def cachedState : PollerState :=
  { runningState with eaCache := [("LICENSE-1", ⟨some "EA-1", 100⟩)] }

/-- A disabled, idle service, used to instantiate the mock-polling
theorems. -/
def disabledState : PollerState :=
  { initialState with isEnabled := false }

/-- The suspension scenario: a session started at t=1000 whose signals
fetch fails on three consecutive cycles, at t=31000, 61000 and 91000; the
result is the state and the trace of the third (threshold-reaching)
cycle. -/
def suspensionScenario : PollerState × List PollEvent :=
  tick (tick (tick (startPolling initialState "LICENSE-1" (some 10)
        (some 11) 1000 0).1
      "LICENSE-1" 31000 31000 31000 (some (some "EA-1")) none).1
    "LICENSE-1" 61000 61000 61000 (some (some "EA-1")) none).1
    "LICENSE-1" 91000 91000 91000 (some (some "EA-1")) none

/-- C1: The claim states that after 3 consecutive fetch failures the poller
stops its timer without clearing the license key and resumes after the
cooldown with the same key and callbacks. The code contradicts this (and
its own comment `Auto-restart after 5 minutes` and the guide's `Automatic
restart after error cooldown`): the threshold branch calls `stopPolling()`,
which nulls `currentLicenseKey`, so the `setTimeout` body's
`if (this.currentLicenseKey)` guard is false after the cooldown and polling
never resumes. Concretely: a session started at t=1000 suffers fetch
failures at t=31000, 61000, 91000; after the third the timer is gone, the
resume is scheduled, but the license key is cleared and the resume callback
is a no-op, leaving the poller stopped. -/
theorem c1_threshold_stops_without_resume :
    suspensionScenario.1.intervalId = none ∧
    PollEvent.scheduleResume ERROR_COOLDOWN_MS ∈ suspensionScenario.2 ∧
    suspensionScenario.1.currentLicenseKey = none ∧
    resumeCallback suspensionScenario.1 391000 1 =
      (suspensionScenario.1, none) ∧
    isRunning (resumeCallback suspensionScenario.1 391000 1).1 = false := by
  decide

/-- C2 counterexample: the claim says a cycle that fails the signals fetch
leaves the watermark unchanged, but the cycle carrying the third
consecutive fetch failure calls `stopPolling()`, which clears
`lastPollTime`: before that cycle the watermark is `some 1000`, the cycle
fails the fetch, and afterwards the watermark is `none`. -/
theorem c2_third_failure_clears_watermark :
    let s0 := (startPolling initialState "LICENSE-1" (some 10) (some 11)
      1000 0).1
    let r1 := tick s0 "LICENSE-1" 31000 31000 31000 (some (some "EA-1")) none
    let r2 := tick r1.1 "LICENSE-1" 61000 61000 61000 (some (some "EA-1")) none
    r2.1.lastPollTime = some 1000 ∧
    (checkForNewSignals r2.1 "LICENSE-1" 91000 91000 91000
      (some (some "EA-1")) none).2.2.isSome = true ∧
    (checkForNewSignals r2.1 "LICENSE-1" 91000 91000 91000
      (some (some "EA-1")) none).1.lastPollTime = none := by decide

/-- C2 (amended): a successful cycle sets the watermark to the cycle's end
time; a cycle that fails resolution, finds no EA, or fails the fetch leaves
it unchanged — except the cycle carrying the third consecutive fetch
failure, which suspends the poller via `stopPolling` and thereby clears the
watermark with the rest of the session state; whenever the watermark is
still set after a cycle, it is ≥ its previous value. -/
theorem c2_watermark_advance (s : PollerState) (key : String)
    (tR tF tEnd : Nat) (rr : ResolveResult) (fr : FetchResult) (t0 : Nat)
    (h0 : s.lastPollTime = some t0) (hle : t0 ≤ tEnd) :
    (cycleSucceeds s key tR rr fr = true →
       (checkForNewSignals s key tR tF tEnd rr fr).1.lastPollTime =
         some tEnd) ∧
    (cycleSucceeds s key tR rr fr = false →
       (checkForNewSignals s key tR tF tEnd rr fr).1.lastPollTime =
         s.lastPollTime ∨
       ((checkForNewSignals s key tR tF tEnd rr fr).1.lastPollTime = none ∧
        reachesFetch s key tR rr = true ∧ fr = none ∧
        maxConsecutiveErrors ≤ s.consecutiveErrors + 1 ∧
        (checkForNewSignals s key tR tF tEnd rr fr).1.intervalId = none)) ∧
    (∀ t1, (checkForNewSignals s key tR tF tEnd rr fr).1.lastPollTime =
       some t1 → t0 ≤ t1) := by
  rcases hg : getEAFromLicense s key tR rr with ⟨s1, ev1, r⟩
  have hstate := getEAFromLicense_state_eq s key tR rr
  have hres := getEAFromLicense_result s key tR rr
  rw [hg] at hstate hres
  simp only at hstate hres
  have hlpt : s1.lastPollTime = s.lastPollTime := by rw [hstate]
  have hiid : s1.intervalId = s.intervalId := by rw [hstate]
  have hcons : s1.consecutiveErrors = s.consecutiveErrors := by rw [hstate]
  unfold checkForNewSignals cycleSucceeds reachesFetch
  rw [hg]
  cases hre : resolvedEA s key tR rr with
  | none =>
      rw [hre] at hres; subst hres
      simp [hlpt, h0]
  | some v =>
      rw [hre] at hres; subst hres
      cases v with
      | none => simp [hlpt, h0]
      | some ea =>
          by_cases he : ea.isEmpty
          · simp [he, hlpt, h0]
          · simp only [he]
            unfold getNewSignalsForEA stopPolling
            cases fr with
            | some sigs => simp [he, hlpt, h0, hle]
            | none =>
                by_cases hth : maxConsecutiveErrors ≤ s.consecutiveErrors + 1
                · simp [he, hcons, hth, hlpt, h0]
                · simp [he, hcons, hth, hlpt, h0]

/-- C2 witness: on a concrete running session whose watermark is 1000, a
successful cycle ending at 31000 advances the watermark to 31000. -/
theorem c2_watermark_advance_witness :
    (checkForNewSignals runningState "LICENSE-1" 31000 31000 31000
        (some (some "EA-1")) (some [sampleSignal])).1.lastPollTime =
      some 31000 :=
  (c2_watermark_advance runningState "LICENSE-1" 31000 31000 31000
      (some (some "EA-1")) (some [sampleSignal]) 1000 rfl (by decide)).1
    (by decide)

/-- C3: the consecutive-error counter is incremented exactly by a failing
signals fetch, reset to zero by every successful fetch, unchanged by a
cycle that never reaches the fetch (resolution failure or no EA), and the
counter reaching the threshold during a failing fetch is the only way a
cycle removes the timer. -/
theorem c3_error_counter_semantics (s : PollerState) (key : String)
    (tR tF tEnd : Nat) (rr : ResolveResult) (fr : FetchResult) :
    (reachesFetch s key tR rr = true → fr = none →
       (checkForNewSignals s key tR tF tEnd rr fr).1.consecutiveErrors =
         s.consecutiveErrors + 1) ∧
    (reachesFetch s key tR rr = true → ∀ sigs, fr = some sigs →
       (checkForNewSignals s key tR tF tEnd rr fr).1.consecutiveErrors = 0) ∧
    (reachesFetch s key tR rr = false →
       (checkForNewSignals s key tR tF tEnd rr fr).1.consecutiveErrors =
         s.consecutiveErrors) ∧
    ((checkForNewSignals s key tR tF tEnd rr fr).1.intervalId ≠
         s.intervalId →
       reachesFetch s key tR rr = true ∧ fr = none ∧
       maxConsecutiveErrors ≤ s.consecutiveErrors + 1 ∧
       (checkForNewSignals s key tR tF tEnd rr fr).1.intervalId = none) := by
  rcases hg : getEAFromLicense s key tR rr with ⟨s1, ev1, r⟩
  have hstate := getEAFromLicense_state_eq s key tR rr
  have hres := getEAFromLicense_result s key tR rr
  rw [hg] at hstate hres
  simp only at hstate hres
  have hiid : s1.intervalId = s.intervalId := by rw [hstate]
  have hcons : s1.consecutiveErrors = s.consecutiveErrors := by rw [hstate]
  unfold reachesFetch
  unfold checkForNewSignals
  rw [hg]
  cases hre : resolvedEA s key tR rr with
  | none =>
      rw [hre] at hres; subst hres
      simp [hiid, hcons]
  | some v =>
      rw [hre] at hres; subst hres
      cases v with
      | none => simp [hiid, hcons]
      | some ea =>
          by_cases he : ea.isEmpty
          · simp [he, hiid, hcons]
          · simp only [he]
            unfold getNewSignalsForEA stopPolling
            cases fr with
            | some sigs => simp [he, hiid, hcons]
            | none =>
                by_cases hth : maxConsecutiveErrors ≤ s.consecutiveErrors + 1 <;>
                  simp [he, hcons, hth, hiid]

/-- C3 witness: on a concrete session with an empty counter, a successful
fetch leaves the counter at zero and a failing fetch raises it to one. -/
theorem c3_error_counter_semantics_witness :
    (checkForNewSignals runningState "LICENSE-1" 31000 31000 31000
        (some (some "EA-1")) (some [sampleSignal])).1.consecutiveErrors = 0 ∧
    (checkForNewSignals runningState "LICENSE-1" 31000 31000 31000
        (some (some "EA-1")) none).1.consecutiveErrors =
      runningState.consecutiveErrors + 1 :=
  ⟨(c3_error_counter_semantics runningState "LICENSE-1" 31000 31000 31000
      (some (some "EA-1")) (some [sampleSignal])).2.1 (by decide)
      [sampleSignal] rfl,
   (c3_error_counter_semantics runningState "LICENSE-1" 31000 31000 31000
      (some (some "EA-1")) none).1 (by decide) rfl⟩

/-- C4: calling `startPolling` while the timer is active returns without
touching any field — the callbacks, license key and watermark are kept and
no second timer is created. -/
theorem c4_startPolling_noop_when_running (s : PollerState) (key : String)
    (cb1 cb2 : Option Nat) (now tid : Nat) (h : isRunning s = true) :
    startPolling s key cb1 cb2 now tid = (s, none) := by
  unfold isRunning at h
  unfold startPolling
  simp [h]

/-- C4 witness: a second `startPolling` on a running session, with a
different key and different callbacks, changes nothing and installs no
timer. -/
theorem c4_startPolling_noop_when_running_witness :
    startPolling runningState "OTHER" (some 20) (some 21) 5000 9 =
      (runningState, none) :=
  c4_startPolling_noop_when_running runningState "OTHER" (some 20) (some 21)
    5000 9 (by decide)

/-- C5: on a successful cycle the signals delivered through `onSignalFound`
are exactly the fetched list — one invocation per signal, in the
collaborator's order, each record unchanged. -/
theorem c5_onSignalFound_in_order (s : PollerState) (key : String)
    (tR tF tEnd : Nat) (rr : ResolveResult) (sigs : List DatabaseSignal)
    (cb : Nat) (hcb : s.onSignalFound = some cb)
    (hres : reachesFetch s key tR rr = true) :
    signalEvents (checkForNewSignals s key tR tF tEnd rr (some sigs)).2.1 =
      sigs := by
  rcases hg : getEAFromLicense s key tR rr with ⟨s1, ev1, r⟩
  have hstate := getEAFromLicense_state_eq s key tR rr
  have hresu := getEAFromLicense_result s key tR rr
  have hev := getEAFromLicense_events s key tR rr
  rw [hg] at hstate hresu hev
  simp only at hstate hresu hev
  have hsf : s1.onSignalFound = s.onSignalFound := by rw [hstate]
  have hev1 : signalEvents ev1 = [] := by
    rw [hev]; cases eaCacheHit s key tR <;> rfl
  unfold reachesFetch at hres
  unfold checkForNewSignals
  rw [hg]
  cases hre : resolvedEA s key tR rr with
  | none => rw [hre] at hres; simp at hres
  | some v =>
      cases v with
      | none => rw [hre] at hres; simp at hres
      | some ea =>
          rw [hre] at hresu hres
          subst hresu
          have he : ea.isEmpty = false := by simpa using hres
          simp only [he]
          unfold getNewSignalsForEA
          simp only [Bool.false_eq_true, if_false]
          simp [hsf, hcb, signalEvents_append, signalEvents_map, hev1,
            signalEvents]

/-- C5 witness: a cycle whose fetch returns a BUY signal then a SELL signal
delivers exactly those two records in that order. -/
theorem c5_onSignalFound_in_order_witness :
    signalEvents (checkForNewSignals runningState "LICENSE-1"
        31000 31000 31000 (some (some "EA-1"))
        (some [sampleSignal, sampleSignal2])).2.1 =
      [sampleSignal, sampleSignal2] :=
  c5_onSignalFound_in_order runningState "LICENSE-1" 31000 31000 31000
    (some (some "EA-1")) [sampleSignal, sampleSignal2] 10 rfl (by decide)

/-- C6: a cache entry younger than the TTL is returned as-is (including a
stored "no EA found") with no remote call and no state change; on a miss or
a stale entry the remote collaborator is called — a successful call stores
the result under the license key with the current timestamp, a failed call
stores nothing. -/
theorem c6_ea_cache_ttl (s : PollerState) (key : String) (now : Nat)
    (rr : ResolveResult) :
    (∀ entry, cacheGet s.eaCache key = some entry →
       now - entry.timestamp < EA_CACHE_TTL →
       getEAFromLicense s key now rr = (s, [], Except.ok entry.ea)) ∧
    (eaCacheHit s key now = none →
       (rr = none →
          getEAFromLicense s key now rr =
            (s, [PollEvent.remoteResolve key],
             Except.error "Failed to fetch EA from license")) ∧
       (∀ v, rr = some v →
          getEAFromLicense s key now rr =
            ({ s with eaCache := cacheSet s.eaCache key ⟨v, now⟩ },
             [PollEvent.remoteResolve key], Except.ok v))) := by
  refine ⟨?_, ?_⟩
  · intro entry hentry hfresh
    unfold getEAFromLicense
    rw [hentry]
    simp [hfresh]
  · intro hmiss
    unfold eaCacheHit at hmiss
    have hpath : getEAFromLicense s key now rr =
        getEAFromLicenseRemote s key now rr := by
      unfold getEAFromLicense
      cases hcg : cacheGet s.eaCache key with
      | none => simp
      | some cached =>
          by_cases hf : now - cached.timestamp < EA_CACHE_TTL
          · exfalso
            rw [hcg] at hmiss
            simp [hf] at hmiss
          · simp [hf]
    refine ⟨?_, ?_⟩
    · intro hrr
      rw [hpath, hrr]
      rfl
    · intro v hrr
      rw [hpath, hrr]
      rfl

/-- C6 witness: with a 100 ms-old entry for the key, resolution at
t=200000 returns the cached EA with no remote request, even though the
remote oracle would fail; the age 199900 ms is below the 300000 ms TTL. -/
theorem c6_ea_cache_ttl_witness :
    getEAFromLicense cachedState "LICENSE-1" 200000 none =
      (cachedState, [], Except.ok (some "EA-1")) :=
  (c6_ea_cache_ttl cachedState "LICENSE-1" 200000 none).1
    ⟨some "EA-1", 100⟩ (by decide) (by decide)


/-- C7 counterexample: the claim says the `since` parameter defaults to one
hour before session start when there has been no prior success. In the
code, `startPolling` seeds `lastPollTime` with the session start time, so
the very first fetch of a session started at t=7200000 uses
`since = 7200000` (the session start itself), not
`7200000 - 3600000 = 3600000`. -/
theorem c7_since_not_one_hour_before_start :
    firstFetchSince (tick (startPolling initialState "ABC" (some 0) (some 1)
        7200000 0).1 "ABC" 7230000 7230000 7230000 (some (some "EA1"))
        (some [])).2 = some 7200000 ∧
    (7200000 : Nat) ≠ 7200000 - 3600000 := by decide

/-- C7 (amended): the signals request carries
`since = lastPollTime || (now - 3600000)` — the session watermark, whose
one-hour-before-the-fetch fallback applies only when the watermark is null;
since `startPolling` seeds the watermark with the session start time, a
session with no prior success fetches since the session start itself. The
request carries the bounded 10-second timeout, and a fetch failure of any
kind (timeout included) throws the same error and increments the error
counter. -/
theorem c7_since_watermark_timeout (s : PollerState) (ea : String)
    (tF : Nat) (fr : FetchResult) (s0 : PollerState) (key : String)
    (cb1 cb2 : Option Nat) (t0 tid : Nat)
    (hidle : s0.intervalId = none) :
    (getNewSignalsForEA s ea tF fr).2.1.head? =
      some (PollEvent.remoteFetch ea (s.lastPollTime.getD (tF - 3600000))
        FETCH_TIMEOUT_MS) ∧
    (startPolling s0 key cb1 cb2 t0 tid).1.lastPollTime = some t0 ∧
    (fr = none →
       (getNewSignalsForEA s ea tF fr).2.2 =
         Except.error "Failed to fetch new signals" ∧
       (getNewSignalsForEA s ea tF fr).1.consecutiveErrors =
         s.consecutiveErrors + 1) := by
  refine ⟨?_, ?_, ?_⟩
  · unfold getNewSignalsForEA
    cases fr with
    | some sigs => rfl
    | none =>
        by_cases hth : maxConsecutiveErrors ≤ s.consecutiveErrors + 1 <;>
          simp [hth]
  · unfold startPolling
    rw [hidle]
    simp only [Option.isSome_none, Bool.false_eq_true, if_false]
    split <;> rfl
  · intro hrr
    subst hrr
    unfold getNewSignalsForEA stopPolling
    by_cases hth : maxConsecutiveErrors ≤ s.consecutiveErrors + 1 <;>
      simp [hth]

/-- C7 witness: on the running session (watermark 1000) a failing fetch at
t=31000 requests `since = 1000` with the 10-second timeout and throws the
fetch-failure error; a fresh session started at t=7200000 has its watermark
seeded with 7200000. -/
theorem c7_since_watermark_timeout_witness :
    (getNewSignalsForEA runningState "EA-1" 31000 none).2.1.head? =
      some (PollEvent.remoteFetch "EA-1" 1000 FETCH_TIMEOUT_MS) ∧
    (startPolling initialState "K" (some 1) (some 2) 7200000 3).1.lastPollTime =
      some 7200000 ∧
    (getNewSignalsForEA runningState "EA-1" 31000 none).2.2 =
      Except.error "Failed to fetch new signals" := by
  have h := c7_since_watermark_timeout runningState "EA-1" 31000 none
    initialState "K" (some 1) (some 2) 7200000 3 rfl
  exact ⟨h.1, h.2.1, (h.2.2 rfl).1⟩

/-- C8 counterexample: the claim says every cycle failure, including the
cycle run immediately at start, is reported via `onError`. The initial
cycle's failures are swallowed by `.catch(error => console.error(...))`:
on a fresh session whose first cycle fails resolution, the cycle throws,
yet the trace of the initial check contains no `onError` invocation. -/
theorem c8_initial_failure_unreported :
    (checkForNewSignals (startPolling initialState "ABC" (some 0) (some 1)
        1000 0).1 "ABC" 31000 31000 31000 none none).2.2.isSome = true ∧
    errorEvents (initialCheck (startPolling initialState "ABC" (some 0)
        (some 1) 1000 0).1 "ABC" 31000 31000 31000 none none).2 = [] := by
  decide

/-- C8 (amended): a failure of a scheduled tick cycle — resolution or
fetch — is reported to the caller by exactly one `onError` invocation and
does not raise past the cycle boundary (the cycle body itself never invokes
`onError`, and a successful tick reports nothing); a failure of the initial
cycle run at start is caught and only logged: `onError` is not invoked for
it. -/
theorem c8_error_reporting (s : PollerState) (key : String)
    (tR tF tEnd : Nat) (rr : ResolveResult) (fr : FetchResult) (cb : Nat)
    (hcb : s.onError = some cb) :
    (∀ e, (checkForNewSignals s key tR tF tEnd rr fr).2.2 = some e →
       errorEvents (tick s key tR tF tEnd rr fr).2 =
         ["Database error: " ++ e]) ∧
    ((checkForNewSignals s key tR tF tEnd rr fr).2.2 = none →
       errorEvents (tick s key tR tF tEnd rr fr).2 = []) ∧
    errorEvents (initialCheck s key tR tF tEnd rr fr).2 = [] := by
  rcases hc : checkForNewSignals s key tR tF tEnd rr fr with ⟨s1, evs, err⟩
  have hoe : s1.onError = s.onError := by
    have h := (checkForNewSignals_frame s key tR tF tEnd rr fr).1
    rw [hc] at h; exact h
  have hee : errorEvents evs = [] := by
    have h := errorEvents_checkForNewSignals s key tR tF tEnd rr fr
    rw [hc] at h; exact h
  unfold tick initialCheck
  rw [hc]
  cases err with
  | none => simp [hee]
  | some e => simp [hoe, hcb, errorEvents_append, hee, errorEvents]

/-- C8 witness: on the running session a tick whose resolution fails
reports exactly one `onError` message, while the initial check on the same
failure reports none. -/
theorem c8_error_reporting_witness :
    errorEvents (tick runningState "LICENSE-1" 31000 31000 31000
        none none).2 =
      ["Database error: Failed to fetch EA from license"] ∧
    errorEvents (initialCheck runningState "LICENSE-1" 31000 31000 31000
        none none).2 = [] := by
  have h := c8_error_reporting runningState "LICENSE-1" 31000 31000 31000
    none none 11 rfl
  exact ⟨h.1 "Failed to fetch EA from license" (by decide), h.2.2⟩

/-- C9: neither `stopPolling` nor `disableDatabaseConnections` touches the
`eaCache`, so an entry written during one session survives teardown, and a
`startPolling` with the same license key followed by a resolution within
the TTL returns the cached EA with no remote request — even if the remote
collaborator would fail. -/
theorem c9_ea_cache_survives_teardown (s : PollerState) (key : String)
    (entry : EACacheEntry) (cb1 cb2 : Option Nat) (tStart tid tR : Nat)
    (rr : ResolveResult)
    (hentry : cacheGet s.eaCache key = some entry)
    (hfresh : tR - entry.timestamp < EA_CACHE_TTL) :
    (stopPolling s).eaCache = s.eaCache ∧
    (disableDatabaseConnections s).eaCache = s.eaCache ∧
    getEAFromLicense ((startPolling (stopPolling s) key cb1 cb2 tStart
        tid).1) key tR rr =
      ((startPolling (stopPolling s) key cb1 cb2 tStart tid).1, [],
       Except.ok entry.ea) := by
  refine ⟨rfl, rfl, ?_⟩
  have hca : cacheGet ((startPolling (stopPolling s) key cb1 cb2 tStart
      tid).1).eaCache key = some entry := by
    have hc2 : ((startPolling (stopPolling s) key cb1 cb2 tStart
        tid).1).eaCache = s.eaCache := by
      unfold startPolling stopPolling
      simp only [Option.isSome_none, Bool.false_eq_true, if_false]
      split <;> rfl
    rw [hc2]
    exact hentry
  unfold getEAFromLicense
  rw [hca]
  simp [hfresh]

/-- C9 witness: a fresh entry written at t=100 survives `stopPolling`, and
after restarting with the same key, resolution at t=200000 (age 199900 ms,
below the 300000 ms TTL) returns the cached EA with no remote request. -/
theorem c9_ea_cache_survives_teardown_witness :
    (stopPolling cachedState).eaCache = cachedState.eaCache ∧
    getEAFromLicense ((startPolling (stopPolling cachedState) "LICENSE-1"
        (some 30) (some 31) 150000 5).1) "LICENSE-1" 200000 none =
      ((startPolling (stopPolling cachedState) "LICENSE-1" (some 30)
        (some 31) 150000 5).1, [], Except.ok (some "EA-1")) := by
  have h := c9_ea_cache_survives_teardown cachedState "LICENSE-1"
    ⟨some "EA-1", 100⟩ (some 30) (some 31) 150000 5 200000 none rfl
    (by decide)
  exact ⟨h.1, h.2.2⟩

/-- C10: `startPolling` on a disabled idle service still creates a session:
it installs the 30-second mock timer, so `isRunning()` is true, and each
timer firing hands `onSignalFound` a fabricated signal (hard-coded
`MockEA`/`XAUUSD` fields) while making no remote request and leaving the
state unchanged. -/
theorem c10_disabled_startPolling_mock (s : PollerState) (key : String)
    (cbS cbE : Nat) (t0 tid tTick : Nat) (coin : Bool)
    (priceStr tpStr slStr : String)
    (hoff : s.isEnabled = false) (hidle : s.intervalId = none) :
    (startPolling s key (some cbS) (some cbE) t0 tid).2 =
      some ⟨TimerKind.mock, POLL_INTERVAL_MS⟩ ∧
    POLL_INTERVAL_MS = 30000 ∧
    isRunning (startPolling s key (some cbS) (some cbE) t0 tid).1 = true ∧
    (mockTick (startPolling s key (some cbS) (some cbE) t0 tid).1 tTick
        coin priceStr tpStr slStr).2 =
      [PollEvent.signalFound cbS (mockSignal tTick coin priceStr tpStr
        slStr)] ∧
    (mockSignal tTick coin priceStr tpStr slStr).ea = "MockEA" ∧
    remoteEvents (mockTick (startPolling s key (some cbS) (some cbE) t0
        tid).1 tTick coin priceStr tpStr slStr).2 = [] ∧
    (mockTick (startPolling s key (some cbS) (some cbE) t0 tid).1 tTick
        coin priceStr tpStr slStr).1 =
      (startPolling s key (some cbS) (some cbE) t0 tid).1 := by
  unfold startPolling mockTick isRunning
  rw [hidle]
  simp [hoff, mockSignal, remoteEvents, POLL_INTERVAL_MS]

/-- C10 witness: starting the disabled service installs the 30-second mock
timer and a firing at t=2000 delivers one fabricated `MockEA` signal with
no remote request. -/
theorem c10_disabled_startPolling_mock_witness :
    (startPolling disabledState "K" (some 40) (some 41) 1000 6).2 =
      some ⟨TimerKind.mock, POLL_INTERVAL_MS⟩ ∧
    isRunning (startPolling disabledState "K" (some 40) (some 41) 1000
      6).1 = true ∧
    (mockTick (startPolling disabledState "K" (some 40) (some 41) 1000 6).1
        2000 true "2500.00" "25.00" "12.00").2 =
      [PollEvent.signalFound 40 (mockSignal 2000 true "2500.00" "25.00"
        "12.00")] := by
  have h := c10_disabled_startPolling_mock disabledState "K" 40 41 1000 6
    2000 true "2500.00" "25.00" "12.00" rfl rfl
  exact ⟨h.1, h.2.2.1, h.2.2.2.1⟩


end EAVault
